import Mathlib

/-! Verification development for the data-analysis dashboard repository.

The tabular data model of the application (pandas dataframes) is embedded
shallowly: a cell is either a missing value (NaN / None), an exact number
(idealising the library's floating point arithmetic by rationals), or a
text value; a dataframe is a list of column names together with a list of
rows.  Fallible library calls are embedded as Except-valued bodies and the
try/except wrappers of the source as a total catch combinator returning
the sentinel pair (dataframe, success flag).
-/

namespace Analys

/-- A single cell of a dataframe: missing (NaN/None), numeric, or text. -/
inductive Cell where
  | null : Cell
  | num : ℚ → Cell
  | str : String → Cell
deriving DecidableEq, Repr

/-- The column dtypes of the source that the type-change operation is
invoked with (`astype('int64')`, `astype('float64')`, object columns). -/
inductive DType where
  | int64 : DType
  | float64 : DType
  | object : DType
deriving DecidableEq, Repr

/-- A dataframe: named columns and a list of rows (row-major). -/
structure DataFrame where
  colNames : List String
  rows : List (List Cell)
deriving DecidableEq, Repr

/-- Rectangularity: every row has one cell per column (always true of a
pandas dataframe; stated as an explicit hypothesis over the list model). -/
def DataFrame.WellFormed (df : DataFrame) : Prop :=
  ∀ r ∈ df.rows, r.length = df.colNames.length

instance (df : DataFrame) : Decidable df.WellFormed := by
  unfold DataFrame.WellFormed; infer_instance

/-- Index of a column label in a list of names (first match), as used by
the label lookup `df[column]`; `none` corresponds to a KeyError. -/
def colIdxAux (c : String) : List String → Option Nat
  | [] => none
  | n :: ns => if n = c then some 0 else (colIdxAux c ns).map (· + 1)

/-- Model of `df[column]` label lookup: position of the column, `none` = KeyError. -/
def DataFrame.colIdx (df : DataFrame) (c : String) : Option Nat :=
  colIdxAux c df.colNames

/-- The cells of column `i`, in row order (the Series `df[column]`). -/
def DataFrame.getCol (df : DataFrame) (i : Nat) : List Cell :=
  df.rows.map (fun r => r.getD i Cell.null)

/-- Replace column `i` by the given cells, row by row (the assignment of a
Series back into the dataframe, as `df.assign` / `df[column] = s` do). -/
def DataFrame.setCol (df : DataFrame) (i : Nat) (vals : List Cell) : DataFrame :=
  { df with rows := (df.rows.zip vals).map (fun rv => rv.1.set i rv.2) }

/-- Model of `df.empty`: true when either axis has length zero. -/
def DataFrame.empty (df : DataFrame) : Bool :=
  df.rows.isEmpty || df.colNames.isEmpty

/-- Number of missing values in a list of cells (`isnull().sum()`). -/
def countNulls (cells : List Cell) : Nat :=
  cells.countP (fun c => decide (c = Cell.null))

/-- Python exceptions are embedded as `Except String`; the string is the
message of the exception that the source's `except` clause would catch. -/
abbrev Py (α : Type) := Except String α

/-- The uniform `try/except` wrapper of the processor module: on success
return the new dataframe with flag `True`, on an exception show a message
and return the input dataframe with flag `False`. -/
def tryExceptFlag (df : DataFrame) (body : Py DataFrame) : DataFrame × Bool :=
  match body with
  | .ok r => (r, true)
  | .error _ => (df, false)

/-- First-error sequential mapping, the evaluation order of the vectorised
library calls (an exception aborts the whole call). -/
def mapExcept (f : α → Py β) : List α → Py (List β)
  | [] => .ok []
  | a :: as =>
    match f a with
    | .error e => .error e
    | .ok b =>
      match mapExcept f as with
      | .error e => .error e
      | .ok bs => .ok (b :: bs)

/-- Truncation of a rational toward zero, the semantics of the `float64`
to `int64` cast of the numeric library. -/
def truncRat (q : ℚ) : ℤ :=
  q.num.tdiv (q.den : ℤ)

/-- Model of `astype(new_type)` on a single cell.  Missing values are preserved by
a cast; a text cell cast to a numeric dtype raises (general case of the
library: non-numeric strings are not convertible); `object` keeps the
value as is. -/
def castCell (new_type : DType) (c : Cell) : Py Cell :=
  match new_type, c with
  | _, .null => .ok .null
  | .int64, .num q => .ok (.num ((truncRat q : ℤ) : ℚ))
  | .float64, .num q => .ok (.num q)
  | .object, c => .ok c
  | .int64, .str _ => .error "ValueError"
  | .float64, .str _ => .error "ValueError"

/-- The non-null values of a Series for a numeric aggregation.  A text
cell in the column makes the aggregation raise (the library's TypeError on
summing / averaging non-numeric data); null cells are skipped. -/
def numericOnly (cells : List Cell) : Py (List ℚ) :=
  if cells.any (fun c => match c with | .str _ => true | _ => false) then
    .error "TypeError"
  else
    .ok (cells.filterMap (fun c => match c with | .num q => some q | _ => none))

/-- Insert into a sorted list of rationals (ascending). -/
def insertSorted (x : ℚ) : List ℚ → List ℚ
  | [] => [x]
  | y :: ys => if x ≤ y then x :: y :: ys else y :: insertSorted x ys

/-- Sort a list of rationals ascending (the sort underlying median and
quantile computations). -/
def sortQ (xs : List ℚ) : List ℚ :=
  xs.foldr insertSorted []

/-- Model of `Series.mean()` over the non-null values: sum divided by count;
`none` is the NaN result on an empty (all-null) column. -/
def meanQ (xs : List ℚ) : Option ℚ :=
  if xs.isEmpty then none else some (xs.sum / (xs.length : ℚ))

/-- Model of `Series.median()` over the non-null values: middle element of the
sorted values, or the average of the two middle elements; `none` is the
NaN result on an empty column. -/
def medianQ (xs : List ℚ) : Option ℚ :=
  let s := sortQ xs
  let n := s.length
  if n = 0 then none
  else if n % 2 = 1 then some (s.getD (n / 2) 0)
  else some ((s.getD (n / 2 - 1) 0 + s.getD (n / 2) 0) / 2)

/-- Floor of a nonnegative rational as a natural number (the integral
part of an interpolation position). -/
def ratFloorNat (q : ℚ) : Nat :=
  (q.num.tdiv (q.den : ℤ)).toNat

/-- Model of `Series.quantile(q)` with the default linear interpolation: with the
`n` sorted non-null values `x_0 ≤ ... ≤ x_(n-1)` and position
`pos = q * (n - 1)`, the result interpolates between the neighbouring
values; `none` is the NaN result on an empty column. -/
def quantileQ (xs : List ℚ) (q : ℚ) : Option ℚ :=
  let s := sortQ xs
  let n := s.length
  if n = 0 then none
  else
    let pos : ℚ := q * ((n : ℚ) - 1)
    let i : Nat := ratFloorNat pos
    let frac : ℚ := pos - (i : ℚ)
    let lo := s.getD i 0
    let hi := s.getD (min (i + 1) (n - 1)) 0
    some (lo + frac * (hi - lo))

/-- Model of `Series.fillna(v)`: replace null cells by `v`, keep the rest. -/
def fillna (cells : List Cell) (v : Cell) : List Cell :=
  cells.map (fun c => match c with | .null => v | c => c)

/-! The processor module (`utils/data_processor.py`).  Each operation is
an Except-valued body (the code inside the `try`) wrapped by
`tryExceptFlag` (the `except` clause returning `(df, False)`). -/

/-- Body of `change_column_type`: raise on a missing column (KeyError of
`df[column]`), raise if the column has null values (the explicit
ValueError of the source), else cast every cell and assign the column. -/
def change_column_type_body (df : DataFrame) (column : String) (new_type : DType) :
    Py DataFrame :=
  match df.colIdx column with
  | none => .error "KeyError"
  | some i =>
    if (df.getCol i).any (fun c => decide (c = Cell.null)) then
      .error "ValueError: null values present"
    else
      match mapExcept (castCell new_type) (df.getCol i) with
      | .error e => .error e
      | .ok vals => .ok (df.setCol i vals)

/-- Model of `change_column_type(df, column, new_type)`. -/
def change_column_type (df : DataFrame) (column : String) (new_type : DType) :
    DataFrame × Bool :=
  tryExceptFlag df (change_column_type_body df column new_type)

/-- Body of `handle_missing_values`: dictionary dispatch on the method
name (an unknown method raises KeyError), then the selected lambda.
`drop` keeps the rows whose cell in the column is non-null;
`fill_value` fills with the given value (a `None` value raises the
library's ValueError); `fill_mean` / `fill_median` fill with the
aggregate of the column (a NaN aggregate on an all-null column fills
nothing). -/
def handle_missing_values_body (df : DataFrame) (column : String) (method : String)
    (value : Option Cell) : Py DataFrame :=
  match method with
  | "drop" =>
    match df.colIdx column with
    | none => .error "KeyError"
    | some i =>
      .ok { df with rows := df.rows.filter (fun r => decide (r.getD i Cell.null ≠ Cell.null)) }
  | "fill_value" =>
    match df.colIdx column with
    | none => .error "KeyError"
    | some i =>
      match value with
      | none => .error "ValueError: must specify a fill value or method"
      | some v => .ok (df.setCol i (fillna (df.getCol i) v))
  | "fill_mean" =>
    match df.colIdx column with
    | none => .error "KeyError"
    | some i =>
      match numericOnly (df.getCol i) with
      | .error e => .error e
      | .ok xs =>
        match meanQ xs with
        | none => .ok (df.setCol i (df.getCol i))
        | some m => .ok (df.setCol i (fillna (df.getCol i) (Cell.num m)))
  | "fill_median" =>
    match df.colIdx column with
    | none => .error "KeyError"
    | some i =>
      match numericOnly (df.getCol i) with
      | .error e => .error e
      | .ok xs =>
        match medianQ xs with
        | none => .ok (df.setCol i (df.getCol i))
        | some m => .ok (df.setCol i (fillna (df.getCol i) (Cell.num m)))
  | _ => .error "KeyError: unknown method"

/-- Model of `handle_missing_values(df, column, method, value=None)`. -/
def handle_missing_values (df : DataFrame) (column : String) (method : String)
    (value : Option Cell := none) : DataFrame × Bool :=
  tryExceptFlag df (handle_missing_values_body df column method value)

/-- Keep the first occurrence of every key, dropping a row whose key was
seen before (`drop_duplicates(keep='first')`). -/
def keepFirstAux (key : List Cell → List Cell) (seen : List (List Cell)) :
    List (List Cell) → List (List Cell)
  | [] => []
  | r :: rs =>
    if key r ∈ seen then keepFirstAux key seen rs
    else r :: keepFirstAux key (key r :: seen) rs

/-- Model of `drop_duplicates(keep='last')` keeps the last occurrence instead. -/
def keepLastAux (key : List Cell → List Cell) (rows : List (List Cell)) :
    List (List Cell) :=
  (keepFirstAux key [] rows.reverse).reverse

/-- Model of `drop_duplicates(keep=False)` keeps only rows whose key is unique. -/
def keepNoneAux (key : List Cell → List Cell) (rows : List (List Cell)) :
    List (List Cell) :=
  rows.filter (fun r => rows.countP (fun s => decide (key s = key r)) = 1)

/-- Body of `remove_duplicates`: resolve the subset of columns used as
the duplicate key (whole row when `subset=None`; a missing subset column
raises KeyError), then drop duplicates under the `keep` policy (an
unknown policy raises the library's ValueError). -/
def remove_duplicates_body (df : DataFrame) (subset : Option (List String))
    (keep : String) : Py DataFrame :=
  match
    (match subset with
     | none => Except.ok (fun (r : List Cell) => r)
     | some cols =>
       match mapExcept (fun c =>
         match df.colIdx c with
         | none => Except.error "KeyError"
         | some i => Except.ok i) cols with
       | .error e => Except.error e
       | .ok idxs => Except.ok (fun (r : List Cell) => idxs.map (fun i => r.getD i Cell.null)))
  with
  | .error e => .error e
  | .ok key =>
    match keep with
    | "first" => .ok { df with rows := keepFirstAux key [] df.rows }
    | "last" => .ok { df with rows := keepLastAux key df.rows }
    | "none" => .ok { df with rows := keepNoneAux key df.rows }
    | _ => .error "ValueError: keep must be first, last or False"

/-- Model of `remove_duplicates(df, subset=None, keep='first')`. -/
def remove_duplicates (df : DataFrame) (subset : Option (List String) := none)
    (keep : String := "first") : DataFrame × Bool :=
  tryExceptFlag df (remove_duplicates_body df subset keep)

/-- A label passed to `df.drop`: a positional row label of the default
range index, or a column name. -/
inductive PyLabel where
  | idx : Nat → PyLabel
  | name : String → PyLabel
deriving DecidableEq, Repr

/-- Body of `delete_data`: `df.drop(items, axis)`.  Axis 0 drops rows by
index label (a label that is not a row position raises KeyError); axis 1
drops columns by name (an unknown name raises KeyError); any other axis
raises the library's ValueError. -/
def delete_data_body (df : DataFrame) (items : List PyLabel) (axis : Nat) :
    Py DataFrame :=
  if axis = 0 then
    match mapExcept (fun it =>
      match it with
      | PyLabel.idx n => if n < df.rows.length then Except.ok n else Except.error "KeyError"
      | PyLabel.name _ => Except.error "KeyError") items with
    | .error e => .error e
    | .ok idxs =>
      .ok { df with rows := (df.rows.enum.filter (fun p => decide (p.1 ∉ idxs))).map (fun p => p.2) }
  else if axis = 1 then
    match mapExcept (fun it =>
      match it with
      | PyLabel.name s =>
        match df.colIdx s with
        | none => Except.error "KeyError"
        | some i => Except.ok i
      | PyLabel.idx _ => Except.error "KeyError") items with
    | .error e => .error e
    | .ok idxs =>
      .ok { colNames := (df.colNames.enum.filter (fun p => decide (p.1 ∉ idxs))).map (fun p => p.2),
            rows := df.rows.map (fun r => (r.enum.filter (fun p => decide (p.1 ∉ idxs))).map (fun p => p.2)) }
  else
    .error "ValueError: no such axis"

/-- Model of `delete_data(df, items, axis=0)`. -/
def delete_data (df : DataFrame) (items : List PyLabel) (axis : Nat := 0) :
    DataFrame × Bool :=
  tryExceptFlag df (delete_data_body df items axis)

/-- The fragment of the `df.eval` expression language the computed-column
feature passes through: column references, numeric literals and the
arithmetic operators. -/
inductive Formula where
  | lit : ℚ → Formula
  | colRef : String → Formula
  | add : Formula → Formula → Formula
  | sub : Formula → Formula → Formula
  | mul : Formula → Formula → Formula
deriving DecidableEq, Repr

/-- Numeric operation on cells with NaN propagation: a null operand makes
the result null. -/
def numBinOp (f : ℚ → ℚ → ℚ) : Cell → Cell → Cell
  | Cell.num a, Cell.num b => Cell.num (f a b)
  | _, _ => Cell.null

/-- Evaluate a formula on one row: an unknown column reference raises the
library's undefined-variable error, a text operand raises TypeError, a
null operand propagates as NaN. -/
def evalFormulaRow (df : DataFrame) (r : List Cell) : Formula → Py Cell
  | .lit q => .ok (Cell.num q)
  | .colRef c =>
    match df.colIdx c with
    | none => .error "UndefinedVariableError"
    | some i =>
      match r.getD i Cell.null with
      | .str _ => .error "TypeError"
      | c => .ok c
  | .add a b =>
    match evalFormulaRow df r a with
    | .error e => .error e
    | .ok x =>
      match evalFormulaRow df r b with
      | .error e => .error e
      | .ok y => .ok (numBinOp (· + ·) x y)
  | .sub a b =>
    match evalFormulaRow df r a with
    | .error e => .error e
    | .ok x =>
      match evalFormulaRow df r b with
      | .error e => .error e
      | .ok y => .ok (numBinOp (· - ·) x y)
  | .mul a b =>
    match evalFormulaRow df r a with
    | .error e => .error e
    | .ok x =>
      match evalFormulaRow df r b with
      | .error e => .error e
      | .ok y => .ok (numBinOp (· * ·) x y)

/-- Body of `add_computed_column`: evaluate the formula over the rows and
assign the result under the new name (`df.assign` replaces an existing
column of that name or appends a new one). -/
def add_computed_column_body (df : DataFrame) (new_column_name : String)
    (formula : Formula) : Py DataFrame :=
  match mapExcept (fun r => evalFormulaRow df r formula) df.rows with
  | .error e => .error e
  | .ok vals =>
    match df.colIdx new_column_name with
    | some i => .ok (df.setCol i vals)
    | none =>
      .ok { colNames := df.colNames ++ [new_column_name],
            rows := (df.rows.zip vals).map (fun rv => rv.1 ++ [rv.2]) }

/-- Model of `add_computed_column(df, new_column_name, formula)`. -/
def add_computed_column (df : DataFrame) (new_column_name : String)
    (formula : Formula) : DataFrame × Bool :=
  tryExceptFlag df (add_computed_column_body df new_column_name formula)

/-! The analyzer module (`utils/data_analyzer.py`). -/

/-- Count of rows flagged by `df.duplicated()`: a row is a duplicate when
an equal row occurred earlier.  `seen` accumulates the keys already
passed (only rows not seen before are added; adding an already-present
key would not change membership). -/
def duplicatedCountAux (seen : List (List Cell)) : List (List Cell) → Nat
  | [] => 0
  | r :: rs =>
    if r ∈ seen then 1 + duplicatedCountAux seen rs
    else duplicatedCountAux (r :: seen) rs

/-- Model of `analyze_duplicates`: the duplicate count the source computes as
`df.duplicated().sum()` and reports as its first metric. -/
def analyze_duplicates (df : DataFrame) : Nat :=
  duplicatedCountAux [] df.rows

/-- Strict comparison of a cell against a bound, as the vectorised
`df[column] < x`: false on a null (NaN) and on any non-numeric cell. -/
def cellLt (c : Cell) (x : ℚ) : Bool :=
  match c with
  | Cell.num v => decide (v < x)
  | _ => false

/-- Strict comparison `df[column] > x` on one cell. -/
def cellGt (c : Cell) (x : ℚ) : Bool :=
  match c with
  | Cell.num v => decide (x < v)
  | _ => false

/-- The Series `df[(df[column] < lb) | (df[column] > ub)][column]` built
inside `analyze_outliers`: the rows passing the boolean mask, projected
to the column. -/
def outliersSeries (df : DataFrame) (i : Nat) (lb ub : ℚ) : List Cell :=
  (df.rows.filter (fun r => cellLt (r.getD i Cell.null) lb || cellGt (r.getD i Cell.null) ub)).map
    (fun r => r.getD i Cell.null)

/-- Model of `analyze_outliers(df, column)`: with no column selected the source
returns `(None, None)` (modelled `Except.ok none`); otherwise it computes
`Q1`, `Q3`, `IQR = Q3 - Q1` and returns the pair
`(Q1 - 1.5*IQR, Q3 + 1.5*IQR)`.  A text column makes the quantile call
raise (there is no try/except here: `Except.error`); on an all-null
column the quantiles and both bounds are NaN (modelled `Except.ok none`). -/
def analyze_outliers (df : DataFrame) (column : Option String) :
    Py (Option (ℚ × ℚ)) :=
  match column with
  | none => .ok none
  | some col =>
    match df.colIdx col with
    | none => .error "KeyError"
    | some i =>
      match numericOnly (df.getCol i) with
      | .error e => .error e
      | .ok xs =>
        match quantileQ xs (1/4), quantileQ xs (3/4) with
        | some q1, some q3 =>
          .ok (some (q1 - 3/2 * (q3 - q1), q3 + 3/2 * (q3 - q1)))
        | _, _ => .ok none

/-! The database module (`utils/database.py`).  The SQLite file is
modelled as a store of named dataframes plus the metadata table; the
connection pool as the queue of open connections. -/

/-- The state of the SQLite database file: the saved dataframes by table
name and the metadata rows `(table_name, last_update, source)`. -/
structure DBState where
  tables : List (String × DataFrame)
  metadata : List (String × String × String)
deriving DecidableEq, Repr

/-- Model of `INSERT OR REPLACE` into an association list keyed by the first
component. -/
def insertReplace (k : String) (v : α) : List (String × α) → List (String × α)
  | [] => [(k, v)]
  | (k', v') :: rest =>
    if k' = k then (k, v) :: rest else (k', v') :: insertReplace k v rest

/-- Lookup of a saved table (`SELECT * FROM table_name`): `none` is the
missing-table error of the SQL layer. -/
def lookupTable (db : DBState) (t : String) : Option DataFrame :=
  (db.tables.find? (fun p => decide (p.1 = t))).map (fun p => p.2)

/-- Model of `save_dataframe(df, table_name, source)`: an empty or missing
dataframe is rejected before any database access; otherwise the data
table is replaced and the metadata row upserted with the current
timestamp (`now` is the value `datetime.now().isoformat()` would give). -/
def save_dataframe (df : Option DataFrame) (table_name : String) (source : String)
    (now : String) (db : DBState) : Bool × DBState :=
  match df with
  | none => (false, db)
  | some d =>
    if d.empty then (false, db)
    else
      (true,
       { tables := insertReplace table_name d db.tables,
         metadata := insertReplace table_name (now, source) db.metadata })

/-- Body of `load_dataframe`: `pd.read_sql` on a missing table raises. -/
def load_dataframe_body (db : DBState) (table_name : String) : Py DataFrame :=
  match lookupTable db table_name with
  | none => .error "DatabaseError: no such table"
  | some d => .ok d

/-- Model of `load_dataframe(table_name)`: the body under try/except, returning
`None` on any database error. -/
def load_dataframe (db : DBState) (table_name : String) : Option DataFrame :=
  match load_dataframe_body db table_name with
  | .ok d => some d
  | .error _ => none

/-- The fixed-size pool of open connections (`queue.Queue` contents, the
front being the next connection handed out); connections are identified
by numbers. -/
structure DatabasePool where
  pool : List Nat
deriving DecidableEq, Repr

/-- Model of `DatabasePool.__init__(max_connections=5)`: open `max_connections`
connections and put them all into the queue. -/
def DatabasePool.mkPool (max_connections : Nat) : DatabasePool :=
  { pool := List.range max_connections }

/-- The module-level `db_pool = DatabasePool()`. -/
def db_pool : DatabasePool :=
  DatabasePool.mkPool 5

/-- Model of `get_connection`: take the front connection from the queue.  A
`queue.Queue.get` on an empty queue blocks forever; the blocked case is
modelled as `none` (it cannot arise in the sequential uses below). -/
def DatabasePool.get_connection (p : DatabasePool) : Option (Nat × DatabasePool) :=
  match p.pool with
  | [] => none
  | c :: rest => some (c, { pool := rest })

/-- Model of `return_connection`: put the connection back at the end of the queue. -/
def DatabasePool.return_connection (p : DatabasePool) (c : Nat) : DatabasePool :=
  { pool := p.pool ++ [c] }

/-- The scoped acquisition `with get_db_connection() as conn`: take a
connection, run the enclosed block (which may raise: its outcome is an
`Except`), and return the same connection in the `finally` clause whether
or not the block raised. -/
def get_db_connection (p : DatabasePool) (body : Nat → Py Unit) :
    Option (Py Unit × DatabasePool) :=
  match p.get_connection with
  | none => none
  | some (c, p1) => some (body c, p1.return_connection c)

/-- A sequence of completed scoped uses of the pool, each block free to
succeed or raise. -/
def runAll (p : DatabasePool) : List (Nat → Py Unit) → Option DatabasePool
  | [] => some p
  | b :: bs =>
    match get_db_connection p b with
    | none => none
    | some (_, p1) => runAll p1 bs

/-! The loader module (`utils/data_loader.py`). -/

/-- An uploaded file: its name, its size in bytes, and the outcome the
appropriate `pandas` reader (`read_csv` / `read_excel`, possibly through
gzip or a ZIP member) produces on its bytes — an exception or a parsed
dataframe. -/
structure UploadedFile where
  name : String
  size : Nat
  parsed : Py DataFrame

/-- Model of `pathlib.PurePath(name).suffix`: in the last path component, the part
from the last dot on, provided that dot is neither the first nor the last
character; empty otherwise. -/
def pathSuffix (name : String) : String :=
  let base := (name.splitOn "/").getLastD ""
  let cs := base.toList
  match (List.range cs.length).filter (fun i => decide (cs.getD i ' ' = '.')) |>.getLast? with
  | some i => if 0 < i ∧ i < cs.length - 1 then String.mk (cs.drop i) else ""
  | none => ""

/-- Model of `MAX_FILE_SIZE = 100 * 1024 * 1024`. -/
def MAX_FILE_SIZE : Nat := 100 * 1024 * 1024

/-- The allowed upload extensions. -/
def allowed_extensions : List String :=
  [".csv", ".xlsx", ".xls", ".gz", ".zip"]

/-- Model of `validate_file(file)`: reject a missing file, a file over the size
limit, and a disallowed extension. -/
def validate_file (file : Option UploadedFile) : Bool :=
  match file with
  | none => false
  | some f =>
    if f.size > MAX_FILE_SIZE then false
    else if (pathSuffix f.name).toLower ∈ allowed_extensions then true
    else false

/-- Model of `validate_dataframe(df)`: reject an empty dataframe, more than 1000
columns, and duplicate column names. -/
def validate_dataframe (df : DataFrame) : Bool × String :=
  if df.empty then (false, "empty dataframe")
  else if df.colNames.length > 1000 then (false, "too many columns")
  else if df.colNames.dedup.length ≠ df.colNames.length then (false, "duplicate column names")
  else (true, "")

/-- Model of `parse_datetime_columns(df)`: re-encodes text columns that parse as
dates, in place, and returns the dataframe.  Date re-encoding does not
touch the shape or the validation outcome; at the value level of this
embedding it is the identity. -/
def parse_datetime_columns (df : DataFrame) : DataFrame := df

/-- Model of `load_data(file, file_type, **kwargs)`: validate the file, run the
reader selected by the name/file_type (its outcome is `file.parsed`; an
exception is caught by the surrounding try/except and yields `None`),
validate the parsed dataframe, and return it after datetime parsing. -/
def load_data (file : Option UploadedFile) (file_type : String) : Option DataFrame :=
  if validate_file file = false then none
  else
    match file with
    | none => none
    | some f =>
      match f.parsed with
      | .error _ => none
      | .ok df =>
        if (validate_dataframe df).1 = false then none
        else some (parse_datetime_columns df)

/-! Helper lemmas. -/

theorem getD_set_of_ne {α : Type} (r : List α) (i j : Nat) (v d : α) (h : j ≠ i) :
    (r.set i v).getD j d = r.getD j d := by
  induction r generalizing i j with
  | nil => simp
  | cons a t ih =>
    cases i with
    | zero =>
      cases j with
      | zero => exact absurd rfl h
      | succ j => simp
    | succ i =>
      cases j with
      | zero => simp
      | succ j =>
        simp only [List.set_cons_succ, List.getD_cons_succ]
        exact ih i j (fun hji => h (by omega))

theorem getD_set_self {α : Type} (r : List α) (i : Nat) (v d : α) (h : i < r.length) :
    (r.set i v).getD i d = v := by
  induction r generalizing i with
  | nil => simp at h
  | cons a t ih =>
    cases i with
    | zero => simp
    | succ i =>
      simp only [List.set_cons_succ, List.getD_cons_succ]
      exact ih i (by simpa using h)

theorem set_getD_self {α : Type} (r : List α) (i : Nat) (d : α) (h : i < r.length) :
    r.set i (r.getD i d) = r := by
  induction r generalizing i with
  | nil => simp at h
  | cons a t ih =>
    cases i with
    | zero => simp
    | succ i =>
      simp only [List.getD_cons_succ, List.set_cons_succ, List.cons.injEq, true_and]
      exact ih i (by simpa using h)

theorem colIdxAux_lt_length (c : String) (ns : List String) (i : Nat)
    (h : colIdxAux c ns = some i) : i < ns.length := by
  induction ns generalizing i with
  | nil => simp [colIdxAux] at h
  | cons n ns ih =>
    simp only [colIdxAux] at h
    by_cases hn : n = c
    · rw [if_pos hn] at h
      cases h
      simp
    · rw [if_neg hn] at h
      cases hx : colIdxAux c ns with
      | none => rw [hx] at h; simp at h
      | some j =>
        rw [hx] at h
        have hj := ih j hx
        simp at h
        simp only [List.length_cons]
        omega

theorem wellformed_col_lt (df : DataFrame) (col : String) (i : Nat)
    (hwf : df.WellFormed) (hcol : df.colIdx col = some i) :
    ∀ r ∈ df.rows, i < r.length := by
  intro r hr
  have h1 : i < df.colNames.length := colIdxAux_lt_length col df.colNames i hcol
  have h2 := hwf r hr
  omega

theorem getCol_length (df : DataFrame) (i : Nat) :
    (df.getCol i).length = df.rows.length := by
  simp [DataFrame.getCol]

theorem setCol_colNames (df : DataFrame) (i : Nat) (vals : List Cell) :
    (df.setCol i vals).colNames = df.colNames := rfl

theorem setCol_rows_length (df : DataFrame) (i : Nat) (vals : List Cell)
    (hlen : vals.length = df.rows.length) :
    (df.setCol i vals).rows.length = df.rows.length := by
  simp [DataFrame.setCol, List.length_zip, hlen]

theorem zipSet_getD_self (i : Nat) (rows : List (List Cell)) (vals : List Cell)
    (hlt : ∀ r ∈ rows, i < r.length) (hlen : vals.length = rows.length) :
    ((rows.zip vals).map (fun rv => rv.1.set i rv.2)).map (fun r => r.getD i Cell.null) = vals := by
  induction rows generalizing vals with
  | nil => cases vals <;> simp_all
  | cons r rs ih =>
    cases vals with
    | nil => simp at hlen
    | cons v vs =>
      simp only [List.zip_cons_cons, List.map_cons, List.cons.injEq]
      constructor
      · exact getD_set_self r i v Cell.null (hlt r (by simp))
      · exact ih vs (fun s hs => hlt s (by simp [hs])) (by simpa using hlen)

theorem getCol_setCol_self (df : DataFrame) (i : Nat) (vals : List Cell)
    (hlt : ∀ r ∈ df.rows, i < r.length) (hlen : vals.length = df.rows.length) :
    (df.setCol i vals).getCol i = vals := by
  simpa [DataFrame.setCol, DataFrame.getCol] using
    zipSet_getD_self i df.rows vals hlt hlen

theorem zipSet_getD_ne (i j : Nat) (hne : j ≠ i) (rows : List (List Cell)) (vals : List Cell)
    (hlen : vals.length = rows.length) :
    ((rows.zip vals).map (fun rv => rv.1.set i rv.2)).map (fun r => r.getD j Cell.null) =
      rows.map (fun r => r.getD j Cell.null) := by
  induction rows generalizing vals with
  | nil => simp
  | cons r rs ih =>
    cases vals with
    | nil => simp at hlen
    | cons v vs =>
      simp only [List.zip_cons_cons, List.map_cons, List.cons.injEq]
      constructor
      · exact getD_set_of_ne r i j v Cell.null hne
      · exact ih vs (by simpa using hlen)

theorem getCol_setCol_ne (df : DataFrame) (i j : Nat) (vals : List Cell)
    (hne : j ≠ i) (hlen : vals.length = df.rows.length) :
    (df.setCol i vals).getCol j = df.getCol j := by
  simpa [DataFrame.setCol, DataFrame.getCol] using
    zipSet_getD_ne i j hne df.rows vals hlen

theorem zipSet_restore (i : Nat) (rows : List (List Cell)) (vals : List Cell)
    (hlt : ∀ r ∈ rows, i < r.length) (hlen : vals.length = rows.length) :
    ((((rows.zip vals).map (fun rv => rv.1.set i rv.2)).zip
        (rows.map (fun r => r.getD i Cell.null))).map (fun rv => rv.1.set i rv.2)) = rows := by
  induction rows generalizing vals with
  | nil => simp
  | cons r rs ih =>
    cases vals with
    | nil => simp at hlen
    | cons v vs =>
      simp only [List.zip_cons_cons, List.map_cons, List.cons.injEq]
      constructor
      · rw [List.set_set]
        exact set_getD_self r i Cell.null (hlt r (by simp))
      · exact ih vs (fun s hs => hlt s (by simp [hs])) (by simpa using hlen)

theorem setCol_setCol_restore (df : DataFrame) (i : Nat) (vals : List Cell)
    (hlt : ∀ r ∈ df.rows, i < r.length) (hlen : vals.length = df.rows.length) :
    (df.setCol i vals).setCol i (df.getCol i) = df := by
  obtain ⟨ns, rows⟩ := df
  simp only [DataFrame.setCol, DataFrame.getCol] at *
  congr 1
  exact zipSet_restore i rows vals hlt hlen

theorem mapExcept_roundtrip (l : List Cell) (f g : Cell → Py Cell)
    (h : ∀ c ∈ l, ∃ c2, f c = .ok c2 ∧ g c2 = .ok c) :
    ∃ l2, mapExcept f l = .ok l2 ∧ mapExcept g l2 = .ok l ∧ l2.length = l.length ∧
      ∀ c2 ∈ l2, ∃ c, c ∈ l ∧ f c = .ok c2 := by
  induction l with
  | nil => exact ⟨[], rfl, rfl, rfl, by simp⟩
  | cons c cs ih =>
    obtain ⟨c2, hf, hg⟩ := h c (by simp)
    obtain ⟨l2, hl2f, hl2g, hlen, hmem⟩ := ih (fun a ha => h a (by simp [ha]))
    refine ⟨c2 :: l2, ?_, ?_, by simp [hlen], ?_⟩
    · simp [mapExcept, hf, hl2f]
    · simp [mapExcept, hg, hl2g]
    · intro a ha
      rcases List.mem_cons.1 ha with rfl | ha
      · exact ⟨c, by simp, hf⟩
      · obtain ⟨b, hb, hfb⟩ := hmem a ha
        exact ⟨b, by simp [hb], hfb⟩

theorem castCell_ok_ne_null (t : DType) (c c2 : Cell)
    (h : castCell t c = .ok c2) (hc : c ≠ Cell.null) : c2 ≠ Cell.null := by
  cases t <;> cases c <;> simp_all [castCell] <;> simp [← h]

theorem fillna_length (cells : List Cell) (v : Cell) :
    (fillna cells v).length = cells.length := by
  simp [fillna]

theorem countNulls_fillna (cells : List Cell) (v : Cell) (hv : v ≠ Cell.null) :
    countNulls (fillna cells v) = 0 := by
  rw [countNulls, List.countP_eq_zero]
  intro a ha
  obtain ⟨c, _, rfl⟩ := List.mem_map.1 ha
  cases c <;> simp_all

theorem keepFirstAux_length (l : List (List Cell)) :
    ∀ seen, (keepFirstAux (fun r => r) seen l).length + duplicatedCountAux seen l = l.length := by
  induction l with
  | nil => intro seen; simp [keepFirstAux, duplicatedCountAux]
  | cons r rs ih =>
    intro seen
    by_cases hr : r ∈ seen
    · simp only [keepFirstAux, duplicatedCountAux, if_pos hr]
      have := ih seen
      simp only [List.length_cons]
      omega
    · simp only [keepFirstAux, duplicatedCountAux, if_neg hr]
      have := ih (r :: seen)
      simp only [List.length_cons]
      omega

theorem runAll_preserves (bodies : List (Nat → Py Unit)) :
    ∀ p : DatabasePool, p.pool ≠ [] →
      ∃ p', runAll p bodies = some p' ∧ p'.pool.length = p.pool.length := by
  induction bodies with
  | nil => intro p _; exact ⟨p, rfl, rfl⟩
  | cons b bs ih =>
    intro p hp
    obtain ⟨c, rest, hrest⟩ : ∃ c rest, p.pool = c :: rest := by
      cases h : p.pool with
      | nil => exact absurd h hp
      | cons c rest => exact ⟨c, rest, rfl⟩
    have hstep : get_db_connection p b =
        some (b c, DatabasePool.mk (rest ++ [c])) := by
      simp [get_db_connection, DatabasePool.get_connection, hrest,
        DatabasePool.return_connection]
    obtain ⟨p', hp', hlen⟩ := ih (DatabasePool.mk (rest ++ [c])) (by simp)
    refine ⟨p', ?_, ?_⟩
    · simp [runAll, hstep, hp']
    · simp only [hlen, hrest]
      simp

theorem tryExceptFlag_cases (df : DataFrame) (b : Py DataFrame) :
    (∃ r, b = .ok r ∧ tryExceptFlag df b = (r, true)) ∨
    (∃ e, b = .error e ∧ tryExceptFlag df b = (df, false)) := by
  cases b with
  | ok r => exact .inl ⟨r, rfl, rfl⟩
  | error e => exact .inr ⟨e, rfl, rfl⟩

theorem tryExceptFlag_false (df : DataFrame) (b : Py DataFrame)
    (h : (tryExceptFlag df b).2 = false) : (tryExceptFlag df b).1 = df := by
  cases b with
  | ok r => simp [tryExceptFlag] at h
  | error e => rfl

/-! Claim theorems. -/

attribute [local semireducible] Rat.add Rat.mul Rat.inv Rat.sub

/-- Claim C2: for every dataframe, `remove_duplicates` with `subset=None`
and `keep='first'` succeeds and returns a dataframe with exactly the
input's row count minus the duplicate count reported by
`analyze_duplicates` (rows equal to an earlier row). -/
theorem remove_duplicates_count_eq (df : DataFrame) :
    (remove_duplicates df none "first").2 = true ∧
    (remove_duplicates df none "first").1.rows.length =
      df.rows.length - analyze_duplicates df := by
  have hbody : remove_duplicates_body df none "first" =
      .ok { df with rows := keepFirstAux (fun r => r) [] df.rows } := rfl
  constructor
  · simp [remove_duplicates, hbody, tryExceptFlag]
  · simp only [remove_duplicates, hbody, tryExceptFlag]
    have h := keepFirstAux_length df.rows []
    simp only [analyze_duplicates]
    omega

/-- Claim C5: every fallible operation returns a sentinel instead of
raising: each processor operation yields `(result, True)` exactly when
its body succeeds and `(input dataframe, False)` exactly when its body
raises, and `load_dataframe` yields `None` exactly on a database error
(here, the saved table being absent). -/
theorem operations_return_sentinels :
    ∀ (df : DataFrame) (col : String) (t : DType) (method : String) (value : Option Cell)
      (subset : Option (List String)) (keep : String) (items : List PyLabel) (axis : Nat)
      (nm : String) (f : Formula) (db : DBState) (table : String),
    ((∃ r, change_column_type_body df col t = .ok r ∧
        change_column_type df col t = (r, true)) ∨
     (∃ e, change_column_type_body df col t = .error e ∧
        change_column_type df col t = (df, false))) ∧
    ((∃ r, handle_missing_values_body df col method value = .ok r ∧
        handle_missing_values df col method value = (r, true)) ∨
     (∃ e, handle_missing_values_body df col method value = .error e ∧
        handle_missing_values df col method value = (df, false))) ∧
    ((∃ r, remove_duplicates_body df subset keep = .ok r ∧
        remove_duplicates df subset keep = (r, true)) ∨
     (∃ e, remove_duplicates_body df subset keep = .error e ∧
        remove_duplicates df subset keep = (df, false))) ∧
    ((∃ r, delete_data_body df items axis = .ok r ∧
        delete_data df items axis = (r, true)) ∨
     (∃ e, delete_data_body df items axis = .error e ∧
        delete_data df items axis = (df, false))) ∧
    ((∃ r, add_computed_column_body df nm f = .ok r ∧
        add_computed_column df nm f = (r, true)) ∨
     (∃ e, add_computed_column_body df nm f = .error e ∧
        add_computed_column df nm f = (df, false))) ∧
    (load_dataframe db table = none ↔ lookupTable db table = none) :=
  fun df col t method value subset keep items axis nm f db table =>
    ⟨tryExceptFlag_cases df _, tryExceptFlag_cases df _, tryExceptFlag_cases df _,
     tryExceptFlag_cases df _, tryExceptFlag_cases df _, by
       cases h : lookupTable db table <;>
         simp [load_dataframe, load_dataframe_body, h]⟩

/-- Claim C6: the connection pool is created with exactly
`max_connections = 5` connections; a scoped acquisition hands out the
front connection and returns that same connection — also when the block
raises — leaving the pool size unchanged; hence after every sequence of
completed scoped uses the pool holds exactly 5 connections, never more. -/
theorem pool_scoped_acquisition_fixed_size :
    ((DatabasePool.mkPool 5).pool.length = 5 ∧ db_pool.pool.length = 5) ∧
    (∀ (c : Nat) (rest : List Nat) (body : Nat → Py Unit),
       get_db_connection ⟨c :: rest⟩ body = some (body c, ⟨rest ++ [c]⟩) ∧
       (rest ++ [c]).length = (c :: rest).length) ∧
    (∀ bodies : List (Nat → Py Unit),
       ∃ p', runAll db_pool bodies = some p' ∧
         p'.pool.length = 5 ∧ p'.pool.length ≤ 5) := by
  have hlen : db_pool.pool.length = 5 := by simp [db_pool, DatabasePool.mkPool]
  refine ⟨⟨by simp [DatabasePool.mkPool], hlen⟩, ?_, ?_⟩
  · intro c rest body
    exact ⟨rfl, by simp⟩
  · intro bodies
    obtain ⟨p', h1, h2⟩ := runAll_preserves bodies db_pool
      (by simp [db_pool, DatabasePool.mkPool])
    exact ⟨p', h1, by omega, by omega⟩

/-- Claim C8: failure is atomic: whenever a processor operation returns
the success flag `False`, the dataframe it returns is the unmodified
input. -/
theorem processor_failure_atomic :
    ∀ (df : DataFrame) (col : String) (t : DType) (method : String) (value : Option Cell)
      (subset : Option (List String)) (keep : String) (items : List PyLabel) (axis : Nat)
      (nm : String) (f : Formula),
    ((change_column_type df col t).2 = false → (change_column_type df col t).1 = df) ∧
    ((handle_missing_values df col method value).2 = false →
       (handle_missing_values df col method value).1 = df) ∧
    ((remove_duplicates df subset keep).2 = false → (remove_duplicates df subset keep).1 = df) ∧
    ((delete_data df items axis).2 = false → (delete_data df items axis).1 = df) ∧
    ((add_computed_column df nm f).2 = false → (add_computed_column df nm f).1 = df) :=
  fun df col t method value subset keep items axis nm f =>
    ⟨tryExceptFlag_false df _, tryExceptFlag_false df _, tryExceptFlag_false df _,
     tryExceptFlag_false df _, tryExceptFlag_false df _⟩

/-- Witness for C8: on a one-row dataframe each of the five operations
fails on a suitable bad input (a null value for the type change, an
unknown method, an unknown keep policy, a missing row label, an unknown
column in the formula) and returns the input dataframe unchanged. -/
theorem processor_failure_atomic_inst :
    ((change_column_type ⟨["a"], [[Cell.null]]⟩ "a" DType.int64).2 = false ∧
     (change_column_type ⟨["a"], [[Cell.null]]⟩ "a" DType.int64).1 = ⟨["a"], [[Cell.null]]⟩) ∧
    ((handle_missing_values ⟨["a"], [[Cell.null]]⟩ "a" "bogus" none).2 = false ∧
     (handle_missing_values ⟨["a"], [[Cell.null]]⟩ "a" "bogus" none).1 = ⟨["a"], [[Cell.null]]⟩) ∧
    ((remove_duplicates ⟨["a"], [[Cell.null]]⟩ none "bogus").2 = false ∧
     (remove_duplicates ⟨["a"], [[Cell.null]]⟩ none "bogus").1 = ⟨["a"], [[Cell.null]]⟩) ∧
    ((delete_data ⟨["a"], [[Cell.null]]⟩ [PyLabel.idx 5] 0).2 = false ∧
     (delete_data ⟨["a"], [[Cell.null]]⟩ [PyLabel.idx 5] 0).1 = ⟨["a"], [[Cell.null]]⟩) ∧
    ((add_computed_column ⟨["a"], [[Cell.null]]⟩ "x" (Formula.colRef "zz")).2 = false ∧
     (add_computed_column ⟨["a"], [[Cell.null]]⟩ "x" (Formula.colRef "zz")).1 =
       ⟨["a"], [[Cell.null]]⟩) := by
  have h := processor_failure_atomic ⟨["a"], [[Cell.null]]⟩ "a" DType.int64 "bogus" none
    none "bogus" [PyLabel.idx 5] 0 "x" (Formula.colRef "zz")
  exact ⟨⟨by decide, h.1 (by decide)⟩, ⟨by decide, h.2.1 (by decide)⟩,
    ⟨by decide, h.2.2.1 (by decide)⟩, ⟨by decide, h.2.2.2.1 (by decide)⟩,
    ⟨by decide, h.2.2.2.2 (by decide)⟩⟩

/-- Claim C10: `save_dataframe` rejects a missing or row-less dataframe
with `False` and performs no write: the database state (data tables and
metadata alike) is returned unchanged. -/
theorem save_dataframe_rejects_empty :
    ∀ (df : Option DataFrame) (table source now : String) (db : DBState),
    (df = none ∨ ∃ d, df = some d ∧ d.rows = []) →
    save_dataframe df table source now db = (false, db) := by
  intro df table source now db h
  rcases h with rfl | ⟨d, rfl, hd⟩
  · rfl
  · simp [save_dataframe, DataFrame.empty, hd]

/-- Witness for C10: saving a dataframe with a column but no rows into an
empty database returns `False` and leaves the database untouched. -/
theorem save_dataframe_rejects_empty_inst :
    save_dataframe (some ⟨["a"], []⟩) "current_data" "file" "2024-01-01" ⟨[], []⟩ =
      (false, ⟨[], []⟩) :=
  save_dataframe_rejects_empty _ _ _ _ _ (Or.inr ⟨_, rfl, rfl⟩)

/-- Counterexample to claim C1 as stated: on a column whose values are
all null, `fill_mean` succeeds (the mean of an empty set of values is NaN
and `fillna(NaN)` fills nothing), yet the returned column still contains
a null value. -/
theorem fill_mean_allnull_counterexample :
    (handle_missing_values ⟨["a"], [[Cell.null]]⟩ "a" "fill_mean" none).2 = true ∧
    countNulls ((handle_missing_values ⟨["a"], [[Cell.null]]⟩ "a" "fill_mean" none).1.getCol 0) ≠ 0 := by
  decide

/-- Claim C1 (amended): for a column of the dataframe, `fill_value` with
a non-null fill value always succeeds with zero nulls left in the column;
`fill_mean` and `fill_median` do so provided the column holds no text
values and at least one non-null value (so that the aggregate is not
NaN). -/
theorem handle_missing_fill_no_nulls :
    ∀ (df : DataFrame) (col : String) (i : Nat),
    df.WellFormed → df.colIdx col = some i →
    (∀ v : Cell, v ≠ Cell.null →
       (handle_missing_values df col "fill_value" (some v)).2 = true ∧
       countNulls ((handle_missing_values df col "fill_value" (some v)).1.getCol i) = 0) ∧
    (∀ (xs : List ℚ) (m : ℚ), numericOnly (df.getCol i) = .ok xs → meanQ xs = some m →
       (handle_missing_values df col "fill_mean" none).2 = true ∧
       countNulls ((handle_missing_values df col "fill_mean" none).1.getCol i) = 0) ∧
    (∀ (xs : List ℚ) (m : ℚ), numericOnly (df.getCol i) = .ok xs → medianQ xs = some m →
       (handle_missing_values df col "fill_median" none).2 = true ∧
       countNulls ((handle_missing_values df col "fill_median" none).1.getCol i) = 0) := by
  intro df col i hwf hcol
  have hlt := wellformed_col_lt df col i hwf hcol
  have hlen : ∀ v : Cell, (fillna (df.getCol i) v).length = df.rows.length := by
    intro v; rw [fillna_length, getCol_length]
  refine ⟨?_, ?_, ?_⟩
  · intro v hv
    have hbody : handle_missing_values_body df col "fill_value" (some v) =
        .ok (df.setCol i (fillna (df.getCol i) v)) := by
      simp [handle_missing_values_body, hcol]
    refine ⟨by simp [handle_missing_values, hbody, tryExceptFlag], ?_⟩
    simp only [handle_missing_values, hbody, tryExceptFlag]
    rw [getCol_setCol_self df i _ hlt (hlen v)]
    exact countNulls_fillna _ v hv
  · intro xs m hxs hm
    have hbody : handle_missing_values_body df col "fill_mean" none =
        .ok (df.setCol i (fillna (df.getCol i) (Cell.num m))) := by
      simp [handle_missing_values_body, hcol, hxs, hm]
    refine ⟨by simp [handle_missing_values, hbody, tryExceptFlag], ?_⟩
    simp only [handle_missing_values, hbody, tryExceptFlag]
    rw [getCol_setCol_self df i _ hlt (hlen (Cell.num m))]
    exact countNulls_fillna _ (Cell.num m) (by simp)
  · intro xs m hxs hm
    have hbody : handle_missing_values_body df col "fill_median" none =
        .ok (df.setCol i (fillna (df.getCol i) (Cell.num m))) := by
      simp [handle_missing_values_body, hcol, hxs, hm]
    refine ⟨by simp [handle_missing_values, hbody, tryExceptFlag], ?_⟩
    simp only [handle_missing_values, hbody, tryExceptFlag]
    rw [getCol_setCol_self df i _ hlt (hlen (Cell.num m))]
    exact countNulls_fillna _ (Cell.num m) (by simp)

/-- Witness for the amended C1: on the column `[null, 1]`, `fill_value`
with 5, `fill_mean` and `fill_median` each succeed leaving zero nulls. -/
theorem handle_missing_fill_no_nulls_inst :
    ((⟨["a"], [[Cell.null], [Cell.num 1]]⟩ : DataFrame).WellFormed ∧
     (⟨["a"], [[Cell.null], [Cell.num 1]]⟩ : DataFrame).colIdx "a" = some 0) ∧
    ((handle_missing_values ⟨["a"], [[Cell.null], [Cell.num 1]]⟩ "a" "fill_value"
        (some (Cell.num 5))).2 = true ∧
     countNulls ((handle_missing_values ⟨["a"], [[Cell.null], [Cell.num 1]]⟩ "a" "fill_value"
        (some (Cell.num 5))).1.getCol 0) = 0) ∧
    ((handle_missing_values ⟨["a"], [[Cell.null], [Cell.num 1]]⟩ "a" "fill_mean" none).2 = true ∧
     countNulls ((handle_missing_values ⟨["a"], [[Cell.null], [Cell.num 1]]⟩ "a" "fill_mean"
        none).1.getCol 0) = 0) ∧
    ((handle_missing_values ⟨["a"], [[Cell.null], [Cell.num 1]]⟩ "a" "fill_median" none).2 = true ∧
     countNulls ((handle_missing_values ⟨["a"], [[Cell.null], [Cell.num 1]]⟩ "a" "fill_median"
        none).1.getCol 0) = 0) := by
  have h := handle_missing_fill_no_nulls ⟨["a"], [[Cell.null], [Cell.num 1]]⟩ "a" 0
    (by decide) (by decide)
  exact ⟨⟨by decide, by decide⟩,
    h.1 (Cell.num 5) (by decide),
    h.2.1 [1] 1 rfl (by decide),
    h.2.2 [1] 1 rfl (by decide)⟩

/-- Claim C9: a `fill_*` method touches only the selected column: the
column names are unchanged, the row count is unchanged, and every column
at a position other than the selected one is returned equal, in order. -/
theorem handle_missing_fill_frame :
    ∀ (df : DataFrame) (col : String) (method : String) (value : Option Cell) (i : Nat),
    method ∈ (["fill_value", "fill_mean", "fill_median"] : List String) →
    df.colIdx col = some i →
    (handle_missing_values df col method value).1.colNames = df.colNames ∧
    (handle_missing_values df col method value).1.rows.length = df.rows.length ∧
    ∀ j, j ≠ i → (handle_missing_values df col method value).1.getCol j = df.getCol j := by
  intro df col method value i hmethod hcol
  have hlen : ∀ v : Cell, (fillna (df.getCol i) v).length = df.rows.length := by
    intro v; rw [fillna_length, getCol_length]
  have hself : (df.getCol i).length = df.rows.length := getCol_length df i
  have hset : ∀ vals : List Cell, vals.length = df.rows.length →
      (df.setCol i vals).colNames = df.colNames ∧
      (df.setCol i vals).rows.length = df.rows.length ∧
      ∀ j, j ≠ i → (df.setCol i vals).getCol j = df.getCol j := by
    intro vals hv
    exact ⟨setCol_colNames df i vals, setCol_rows_length df i vals hv,
      fun j hj => getCol_setCol_ne df i j vals hj hv⟩
  have htriv : (df.colNames = df.colNames ∧ df.rows.length = df.rows.length ∧
      ∀ j, j ≠ i → df.getCol j = df.getCol j) := ⟨rfl, rfl, fun _ _ => rfl⟩
  simp only [List.mem_cons, List.not_mem_nil, or_false] at hmethod
  rcases hmethod with rfl | rfl | rfl
  · cases value with
    | none =>
      simp only [handle_missing_values, handle_missing_values_body, hcol, tryExceptFlag]
      simp [hcol, htriv]
    | some v =>
      have hbody : handle_missing_values_body df col "fill_value" (some v) =
          .ok (df.setCol i (fillna (df.getCol i) v)) := by
        simp [handle_missing_values_body, hcol]
      simp only [handle_missing_values, hbody, tryExceptFlag]
      exact hset _ (hlen v)
  · cases hxs : numericOnly (df.getCol i) with
    | error e =>
      have hbody : handle_missing_values_body df col "fill_mean" value = .error e := by
        simp [handle_missing_values_body, hcol, hxs]
      simp only [handle_missing_values, hbody, tryExceptFlag]
      simp
    | ok xs =>
      cases hm : meanQ xs with
      | none =>
        have hbody : handle_missing_values_body df col "fill_mean" value =
            .ok (df.setCol i (df.getCol i)) := by
          simp [handle_missing_values_body, hcol, hxs, hm]
        simp only [handle_missing_values, hbody, tryExceptFlag]
        exact hset _ hself
      | some m =>
        have hbody : handle_missing_values_body df col "fill_mean" value =
            .ok (df.setCol i (fillna (df.getCol i) (Cell.num m))) := by
          simp [handle_missing_values_body, hcol, hxs, hm]
        simp only [handle_missing_values, hbody, tryExceptFlag]
        exact hset _ (hlen (Cell.num m))
  · cases hxs : numericOnly (df.getCol i) with
    | error e =>
      have hbody : handle_missing_values_body df col "fill_median" value = .error e := by
        simp [handle_missing_values_body, hcol, hxs]
      simp only [handle_missing_values, hbody, tryExceptFlag]
      simp
    | ok xs =>
      cases hm : medianQ xs with
      | none =>
        have hbody : handle_missing_values_body df col "fill_median" value =
            .ok (df.setCol i (df.getCol i)) := by
          simp [handle_missing_values_body, hcol, hxs, hm]
        simp only [handle_missing_values, hbody, tryExceptFlag]
        exact hset _ hself
      | some m =>
        have hbody : handle_missing_values_body df col "fill_median" value =
            .ok (df.setCol i (fillna (df.getCol i) (Cell.num m))) := by
          simp [handle_missing_values_body, hcol, hxs, hm]
        simp only [handle_missing_values, hbody, tryExceptFlag]
        exact hset _ (hlen (Cell.num m))

/-- Witness for C9: filling the missing values of the first column leaves
the second column and the row count unchanged. -/
theorem handle_missing_fill_frame_inst :
    ((⟨["a", "b"], [[Cell.null, Cell.str "x"], [Cell.num 1, Cell.str "y"]]⟩ : DataFrame).colIdx
        "a" = some 0) ∧
    (handle_missing_values ⟨["a", "b"], [[Cell.null, Cell.str "x"], [Cell.num 1, Cell.str "y"]]⟩
        "a" "fill_mean" none).1.colNames = ["a", "b"] ∧
    (handle_missing_values ⟨["a", "b"], [[Cell.null, Cell.str "x"], [Cell.num 1, Cell.str "y"]]⟩
        "a" "fill_mean" none).1.rows.length = 2 ∧
    (handle_missing_values ⟨["a", "b"], [[Cell.null, Cell.str "x"], [Cell.num 1, Cell.str "y"]]⟩
        "a" "fill_mean" none).1.getCol 1 =
      (⟨["a", "b"], [[Cell.null, Cell.str "x"], [Cell.num 1, Cell.str "y"]]⟩ : DataFrame).getCol 1 := by
  have h := handle_missing_fill_frame
    ⟨["a", "b"], [[Cell.null, Cell.str "x"], [Cell.num 1, Cell.str "y"]]⟩
    "a" "fill_mean" none 0 (by decide) (by decide)
  exact ⟨by decide, h.1, h.2.1, h.2.2 1 (by decide)⟩

theorem any_null_eq_false (l : List Cell) (h : ∀ c ∈ l, c ≠ Cell.null) :
    (l.any fun c => decide (c = Cell.null)) = false := by
  induction l with
  | nil => rfl
  | cons a t ih =>
    simp only [List.any_cons, Bool.or_eq_false_iff]
    exact ⟨by simpa using h a (by simp), ih (fun c hc => h c (by simp [hc]))⟩

theorem outliersSeries_eq_filter (df : DataFrame) (i : Nat) (lb ub : ℚ) :
    outliersSeries df i lb ub =
      (df.getCol i).filter (fun c => cellLt c lb || cellGt c ub) := by
  simp only [outliersSeries, DataFrame.getCol, List.filter_map]
  rfl

/-- Claim C3: `analyze_outliers` returns the bounds
`(Q1 - 1.5*IQR, Q3 + 1.5*IQR)` computed from the 0.25 and 0.75 quantiles
of the column, and the rows it counts as outliers are exactly those with
a value strictly below the lower bound or strictly above the upper bound. -/
theorem analyze_outliers_iqr_bounds :
    ∀ (df : DataFrame) (col : String) (i : Nat) (xs : List ℚ) (q1 q3 : ℚ),
    df.colIdx col = some i →
    numericOnly (df.getCol i) = .ok xs →
    quantileQ xs (1/4) = some q1 →
    quantileQ xs (3/4) = some q3 →
    analyze_outliers df (some col) =
      .ok (some (q1 - 3/2 * (q3 - q1), q3 + 3/2 * (q3 - q1))) ∧
    outliersSeries df i (q1 - 3/2 * (q3 - q1)) (q3 + 3/2 * (q3 - q1)) =
      (df.getCol i).filter (fun c =>
        match c with
        | Cell.num v =>
          decide (v < q1 - 3/2 * (q3 - q1) ∨ q3 + 3/2 * (q3 - q1) < v)
        | _ => false) := by
  intro df col i xs q1 q3 hcol hxs h1 h3
  constructor
  · simp only [analyze_outliers, hcol, hxs]
    rw [h1, h3]
  · rw [outliersSeries_eq_filter]
    congr 1
    funext c
    cases c with
    | null => simp [cellLt, cellGt]
    | num v =>
      by_cases hv1 : v < q1 - 3/2 * (q3 - q1) <;>
        by_cases hv2 : q3 + 3/2 * (q3 - q1) < v <;>
          simp [cellLt, cellGt, hv1, hv2]
    | str s => simp [cellLt, cellGt]

/-- Witness for C3: on the column `[1, 2, 3, 4]` the quantiles are
`Q1 = 7/4` and `Q3 = 13/4` and `analyze_outliers` returns the standard
IQR bounds. -/
theorem analyze_outliers_iqr_bounds_inst :
    (numericOnly ((⟨["a"], [[Cell.num 1], [Cell.num 2], [Cell.num 3], [Cell.num 4]]⟩ :
        DataFrame).getCol 0) = .ok [1, 2, 3, 4] ∧
     quantileQ [1, 2, 3, 4] (1/4) = some (7/4) ∧
     quantileQ [1, 2, 3, 4] (3/4) = some (13/4)) ∧
    analyze_outliers ⟨["a"], [[Cell.num 1], [Cell.num 2], [Cell.num 3], [Cell.num 4]]⟩
        (some "a") =
      .ok (some (7/4 - 3/2 * (13/4 - 7/4), 13/4 + 3/2 * (13/4 - 7/4))) := by
  have h := analyze_outliers_iqr_bounds
    ⟨["a"], [[Cell.num 1], [Cell.num 2], [Cell.num 3], [Cell.num 4]]⟩ "a" 0
    [1, 2, 3, 4] (7/4) (13/4) (by decide) rfl (by decide) (by decide)
  exact ⟨⟨rfl, by decide, by decide⟩, h.1⟩

/-- Counterexample to claim C4 as stated: converting the `float64` column
`[1.5]` to `int64` truncates to `[1]`; converting back to `float64`
succeeds but yields `[1.0]`, not the original dataframe — the round trip
loses information even though both calls report success. -/
theorem change_column_type_roundtrip_counterexample :
    (change_column_type ⟨["a"], [[Cell.num (3/2)]]⟩ "a" DType.int64).2 = true ∧
    (change_column_type (change_column_type ⟨["a"], [[Cell.num (3/2)]]⟩ "a"
        DType.int64).1 "a" DType.float64).2 = true ∧
    (change_column_type (change_column_type ⟨["a"], [[Cell.num (3/2)]]⟩ "a"
        DType.int64).1 "a" DType.float64).1 ≠ ⟨["a"], [[Cell.num (3/2)]]⟩ := by
  decide

/-- Claim C4 (amended): for a column with no null values, if converting
each of its values to the target type and back returns exactly the
original value (the conversion pair is lossless on the column's values),
then converting the column and converting it back yields the original
dataframe, with both calls succeeding.  In general the round trip loses
information (a `float64` to `int64` cast truncates). -/
theorem change_column_type_roundtrip_lossless :
    ∀ (df : DataFrame) (col : String) (i : Nat) (t1 t2 : DType),
    df.WellFormed → df.colIdx col = some i →
    (∀ c ∈ df.getCol i, c ≠ Cell.null) →
    (∀ c ∈ df.getCol i, ∃ c2, castCell t2 c = .ok c2 ∧ castCell t1 c2 = .ok c) →
    (change_column_type df col t2).2 = true ∧
    change_column_type (change_column_type df col t2).1 col t1 = (df, true) := by
  intro df col i t1 t2 hwf hcol hnn hlossless
  have hlt := wellformed_col_lt df col i hwf hcol
  obtain ⟨l2, hl2f, hl2g, hlen2, hmem2⟩ :=
    mapExcept_roundtrip (df.getCol i) (castCell t2) (castCell t1) hlossless
  have hanyfalse : (df.getCol i).any (fun c => decide (c = Cell.null)) = false :=
    any_null_eq_false _ hnn
  have hbody1 : change_column_type_body df col t2 = .ok (df.setCol i l2) := by
    simp [change_column_type_body, hcol, hanyfalse, hl2f]
  have hfirst : change_column_type df col t2 = (df.setCol i l2, true) := by
    simp [change_column_type, hbody1, tryExceptFlag]
  refine ⟨by simp [hfirst], ?_⟩
  rw [hfirst]
  have hlen2' : l2.length = df.rows.length := by
    rw [hlen2, getCol_length]
  have hcol2 : (df.setCol i l2).colIdx col = some i := hcol
  have hget2 : (df.setCol i l2).getCol i = l2 :=
    getCol_setCol_self df i l2 hlt hlen2'
  have hnn2 : ((df.setCol i l2).getCol i).any (fun c => decide (c = Cell.null)) = false := by
    rw [hget2]
    refine any_null_eq_false l2 (fun c2 hc2 => ?_)
    obtain ⟨c, hc, hfc⟩ := hmem2 c2 hc2
    exact castCell_ok_ne_null t2 c c2 hfc (hnn c hc)
  have hnotmem : Cell.null ∉ l2 := by
    intro hmem
    obtain ⟨c, hc, hfc⟩ := hmem2 Cell.null hmem
    exact castCell_ok_ne_null t2 c Cell.null hfc (hnn c hc) rfl
  have hbody2 : change_column_type_body (df.setCol i l2) col t1 =
      .ok ((df.setCol i l2).setCol i (df.getCol i)) := by
    simp [change_column_type_body, hcol2, hnn2, hget2, hl2g, hnotmem]
  have hrestore : (df.setCol i l2).setCol i (df.getCol i) = df :=
    setCol_setCol_restore df i l2 hlt hlen2'
  simp [change_column_type, hbody2, tryExceptFlag, hrestore]

/-- Witness for the amended C4: the integer-valued `float64` column `[2]`
survives the cast to `int64` and back unchanged, both calls succeeding. -/
theorem change_column_type_roundtrip_lossless_inst :
    ((⟨["a"], [[Cell.num 2]]⟩ : DataFrame).WellFormed ∧
     (⟨["a"], [[Cell.num 2]]⟩ : DataFrame).colIdx "a" = some 0) ∧
    (change_column_type ⟨["a"], [[Cell.num 2]]⟩ "a" DType.int64).2 = true ∧
    change_column_type (change_column_type ⟨["a"], [[Cell.num 2]]⟩ "a" DType.int64).1
      "a" DType.float64 = (⟨["a"], [[Cell.num 2]]⟩, true) := by
  have h := change_column_type_roundtrip_lossless ⟨["a"], [[Cell.num 2]]⟩ "a" 0
    DType.float64 DType.int64 (by decide) (by decide) (by decide)
    (by
      intro c hc
      have hcv : c = Cell.num 2 := by
        simpa [DataFrame.getCol] using hc
      subst hcv
      exact ⟨Cell.num 2, rfl, rfl⟩)
  exact ⟨⟨by decide, by decide⟩, h.1, h.2⟩

/-- Claim C7: `load_data` returns `None` exactly when the file is
missing, oversized (more than 100 MB), has a disallowed extension, fails
to parse, or parses to a dataframe that is empty, has more than 1000
columns or has duplicate column names; a dataframe is returned only when
every check passes. -/
theorem load_data_validates :
    ∀ (f : UploadedFile) (ft : String),
    (load_data (some f) ft = none ↔
       f.size > MAX_FILE_SIZE ∨
       (pathSuffix f.name).toLower ∉ allowed_extensions ∨
       (∃ e, f.parsed = .error e) ∨
       (∃ df, f.parsed = .ok df ∧
          (df.empty = true ∨ df.colNames.length > 1000 ∨
           df.colNames.dedup.length ≠ df.colNames.length))) ∧
    load_data none ft = none := by
  intro f ft
  refine ⟨?_, rfl⟩
  by_cases hs : f.size > MAX_FILE_SIZE
  · simp [load_data, validate_file, hs]
  · by_cases he : (pathSuffix f.name).toLower ∈ allowed_extensions
    · cases hp : f.parsed with
      | error e =>
        simp [load_data, validate_file, hs, he, hp]
      | ok df =>
        by_cases h1 : df.empty = true
        · simp [load_data, validate_file, validate_dataframe, hs, he, hp, h1]
        · by_cases h2 : df.colNames.length > 1000
          · simp [load_data, validate_file, validate_dataframe, hs, he, hp, h1, h2]
          · by_cases h3 : df.colNames.dedup.length ≠ df.colNames.length
            · simp [load_data, validate_file, validate_dataframe, hs, he, hp, h1, h2, h3]
            · simp [load_data, validate_file, validate_dataframe, hs, he, hp, h1, h2, h3]
    · simp [load_data, validate_file, hs, he]

end Analys
